import Mathlib

/-!
Verification development for the Automated-toll-App repository.

The TypeScript source is shallowly embedded here.  JavaScript numbers are
modelled as exact rationals; the trigonometric haversine distance is kept
as an abstract parameter `dist : Point → Point → ℚ` of the state machines
(no claim depends on its concrete values, only on nonnegativity where
stated).  The JavaScript expression Math.round x is modelled as
floor (x + 1/2), which is how Math.round behaves on every real input.
-/

namespace TollApp

/-- Model of the JavaScript Math.round: floor (x + 1/2). -/
def jsRound (x : ℚ) : ℤ := Int.floor (x + 1 / 2)

/-- A WGS84 coordinate, as the source type Point = \x7b lat, lng \x7d. -/
structure Point where
  lat : ℚ
  lng : ℚ
deriving Repr, DecidableEq

/-! ## GeoMath: isPointInPolygon (home.tsx lines 56-68)

The source iterates `for (let i = 0, j = n - 1; i < n; j = i++)` over the
ring, flipping `isInside` whenever the ray-casting test fires for the edge
(polygon[j], polygon[i]).  `pipCond p a b` is the loop-body condition with
a = polygon[i] and b = polygon[j]; the JavaScript `&&` short-circuit means
the division is only reached when the longitude test already holds. -/

/-- Loop-body condition of isPointInPolygon: edge from b to a, tested
against point p (source line 63-64). -/
def pipCond (p a b : Point) : Bool :=
  (decide (a.lng > p.lng) != decide (b.lng > p.lng))
    && decide (p.lat < (b.lat - a.lat) * (p.lng - a.lng) / (b.lng - a.lng) + a.lat)

/-- One iteration of the ray-casting loop: flip the accumulator when the
condition fires. -/
def pipStep (p a b : Point) (inside : Bool) : Bool :=
  if pipCond p a b then !inside else inside

/-- The loop of isPointInPolygon over a nonempty ring: the index pairs
(i, j) are (0, n-1), (1, 0), ..., (n-1, n-2), which is the zip of the ring
with (last :: ring). -/
def isPointInPolygonRing (p : Point) (ring : List Point) : Bool :=
  match ring.getLast? with
  | none => false
  | some lastPt =>
      (ring.zip (lastPt :: ring)).foldl (fun inside ab => pipStep p ab.1 ab.2 inside) false

/-- isPointInPolygon with the `if (!polygon) return false` null guard of
the source; a missing ring is `none`. -/
def isPointInPolygon (p : Point) (ring : Option (List Point)) : Bool :=
  match ring with
  | none => false
  | some r => isPointInPolygonRing p r

/-- The loop condition is symmetric in the two edge endpoints: both
directions of a segment interpolate the same crossing abscissa. -/
theorem pipCond_symm (p a b : Point) : pipCond p a b = pipCond p b a := by
  by_cases h : a.lng = b.lng
  · simp [pipCond, h]
  · have hne : b.lng - a.lng ≠ 0 := sub_ne_zero.mpr (Ne.symm h)
    have hne' : a.lng - b.lng ≠ 0 := sub_ne_zero.mpr h
    have hval : (b.lat - a.lat) * (p.lng - a.lng) / (b.lng - a.lng) + a.lat
        = (a.lat - b.lat) * (p.lng - b.lng) / (a.lng - b.lng) + b.lat := by
      field_simp
      ring
    unfold pipCond
    rw [hval]
    cases h1 : decide (a.lng > p.lng) <;> cases h2 : decide (b.lng > p.lng) <;>
      simp [h1, h2]

theorem pip_single (p a : Point) : isPointInPolygonRing p [a] = false := by
  show pipStep p a a false = false
  simp [pipStep, pipCond]

theorem pip_pair (p a b : Point) : isPointInPolygonRing p [a, b] = false := by
  show pipStep p b a (pipStep p a b false) = false
  unfold pipStep
  rw [← pipCond_symm p a b]
  cases hc : pipCond p a b <;> simp [hc]

/-- Demonstration points used by the concrete evaluations below. -/
def pA : Point := { lat := 10, lng := 76 }

def pB : Point := { lat := 10, lng := 77 }

/-! ## GeoMath under IEEE-754 binary64 arithmetic

The exact-rational reading above is easier than the program: the source
evaluates in JavaScript doubles, and the symmetry pipCond_symm fails
under rounding.  This section embeds the same isPointInPolygon loop over
a model of binary64: a value is a pair m * 2^e of integers, every
arithmetic result is rounded to a 53-bit significand with
round-to-nearest, ties-to-even.  The exponent is unbounded (overflow and
subnormal rounding never arise for the coordinates considered, which all
lie well inside the normal range), and input coordinates are taken to
already be doubles, as JavaScript numbers are. -/

/-- 2^d as an integer (d is expected nonnegative where used). -/
def pw (d : ℤ) : ℤ := ((2 ^ d.toNat : ℕ) : ℤ)

/-- A finite binary64 value m * 2^e (not necessarily normalised). -/
structure Fp where
  m : ℤ
  e : ℤ
deriving Repr, DecidableEq

/-- Largest j in [-140, 140] with 2^j ≤ a / b, for a, b > 0: the binary
exponent of the quotient.  The pip computation only meets quotients far
inside this range. -/
def floorLog2Q (a b : ℤ) : ℤ :=
  (List.range 281).foldl
    (fun acc k =>
      let j : ℤ := (k : ℤ) - 140
      let ok : Bool := if 0 ≤ j then decide (b * pw j ≤ a) else decide (b ≤ a * pw (-j))
      if ok then j else acc)
    (-140)

/-- Nearest integer to a / b for b > 0 (a nonnegative where used), ties
to even. -/
def rndEvenDiv (a b : ℤ) : ℤ :=
  let q := Int.ediv a b
  let r := a - q * b
  if 2 * r < b then q
  else if b < 2 * r then q + 1
  else if Int.emod q 2 = 0 then q else q + 1

/-- The correctly rounded binary64 value of (a / b) * 2^s: round the
53-bit significand of the quotient to nearest, ties to even. -/
def flQ (a b s : ℤ) : Fp :=
  if a = 0 ∨ b = 0 then ⟨0, 0⟩
  else
    let sign : ℤ := if (a < 0) ↔ (b < 0) then 1 else -1
    let A : ℤ := (a.natAbs : ℤ)
    let B : ℤ := (b.natAbs : ℤ)
    let j := floorLog2Q A B
    let n := if 0 ≤ 52 - j then rndEvenDiv (A * pw (52 - j)) B
             else rndEvenDiv A (B * pw (j - 52))
    ⟨sign * n, j - 52 + s⟩

/-- Binary64 addition: align, add exactly, round. -/
def addFp (x y : Fp) : Fp :=
  let e := if x.e ≤ y.e then x.e else y.e
  flQ (x.m * pw (x.e - e) + y.m * pw (y.e - e)) 1 e

/-- Binary64 subtraction (negation is exact). -/
def subFp (x y : Fp) : Fp := addFp x ⟨-y.m, y.e⟩

/-- Binary64 multiplication: exact product, round. -/
def mulFp (x y : Fp) : Fp := flQ (x.m * y.m) 1 (x.e + y.e)

/-- Binary64 division: round the exact quotient. -/
def divFp (x y : Fp) : Fp := flQ x.m y.m (x.e - y.e)

/-- Comparison of binary64 values (exact). -/
def ltFp (x y : Fp) : Bool :=
  let e := if x.e ≤ y.e then x.e else y.e
  decide (x.m * pw (x.e - e) < y.m * pw (y.e - e))

def gtFp (x y : Fp) : Bool := ltFp y x

/-- A coordinate whose fields are JavaScript doubles. -/
structure PointF where
  lat : Fp
  lng : Fp
deriving Repr, DecidableEq

/-- The isPointInPolygon loop-body condition, evaluated exactly as the
source does in doubles: every binary operation of
(xj - xi) * (point.lng - yi) / (yj - yi) + xi rounds. -/
def pipCondF (p a b : PointF) : Bool :=
  (gtFp a.lng p.lng != gtFp b.lng p.lng)
    && ltFp p.lat
        (addFp (divFp (mulFp (subFp b.lat a.lat) (subFp p.lng a.lng))
                      (subFp b.lng a.lng))
               a.lat)

def pipStepF (p a b : PointF) (inside : Bool) : Bool :=
  if pipCondF p a b then !inside else inside

def isPointInPolygonRingF (p : PointF) (ring : List PointF) : Bool :=
  match ring.getLast? with
  | none => false
  | some lastPt =>
      (ring.zip (lastPt :: ring)).foldl (fun inside ab => pipStepF p ab.1 ab.2 inside) false

/-- isPointInPolygon over doubles, with the null guard. -/
def isPointInPolygonF (p : PointF) (ring : Option (List PointF)) : Bool :=
  match ring with
  | none => false
  | some r => isPointInPolygonRingF p r

/-- The JavaScript double 0.1 (= 3602879701896397 * 2^-55) and its
predecessor 0.09999999999999999 (= 7205759403792793 * 2^-56): the point
\x7b lat: 0.09999999999999999, lng: 0.1 \x7d of the counterexample. -/
def cexP : PointF := ⟨⟨7205759403792793, -56⟩, ⟨3602879701896397, -55⟩⟩

def cexQ0 : PointF := ⟨⟨0, 0⟩, ⟨0, 0⟩⟩

def cexQ1 : PointF := ⟨⟨1, 0⟩, ⟨1, 0⟩⟩

set_option maxRecDepth 100000 in
/-- C9 counterexample: under the source's double arithmetic the 2-point
ring [(0,0), (1,1)] with p = (0.09999999999999999, 0.1) returns true:
the forward edge interpolates the double 0.1 (one parity flip, since
p.lat is the double just below 0.1) while the reverse edge rounds
0.1 - 1 to -0.9, whose interpolation 7205759403792792 * 2^-56 lies just
below p.lat (no second flip).  So a ring with fewer than 3 points does
not always yield false. -/
theorem C9_two_point_float_counterexample :
    [cexQ0, cexQ1].length < 3
    ∧ isPointInPolygonF cexP (some [cexQ0, cexQ1]) = true :=
  ⟨by decide, by decide⟩

/-- C9 (amended): under the source's double arithmetic, pointInPolygon
returns false for every ring with fewer than 2 points — the missing
ring, the empty ring, and every 1-point ring; the 2-point case holds
only under exact arithmetic, where it extends to every ring with fewer
than 3 points. -/
theorem C9_small_ring_amended (p : PointF) (r : List PointF) (h2 : r.length < 2)
    (pe : Point) (r3 : List Point) (h3 : r3.length < 3) :
    (isPointInPolygonF p (some r) = false ∧ isPointInPolygonF p none = false)
    ∧ (isPointInPolygon pe (some r3) = false ∧ isPointInPolygon pe none = false) := by
  constructor
  · refine ⟨?_, rfl⟩
    rcases r with _ | ⟨a, _ | ⟨b, t⟩⟩
    · rfl
    · show pipStepF p a a false = false
      simp [pipStepF, pipCondF]
    · exfalso
      simp only [List.length_cons] at h2
      omega
  · refine ⟨?_, rfl⟩
    rcases r3 with _ | ⟨a, _ | ⟨b, _ | ⟨c, t⟩⟩⟩
    · rfl
    · exact pip_single pe a
    · exact pip_pair pe a b
    · exfalso
      simp only [List.length_cons] at h3
      omega

/-- C9 amended witness: a concrete 1-point double ring and a concrete
2-point exact ring are both rejected. -/
theorem C9_amended_witness :
    ([cexQ0].length < 2 ∧ [pA, pB].length < 3)
    ∧ ((isPointInPolygonF cexP (some [cexQ0]) = false
        ∧ isPointInPolygonF cexP none = false)
      ∧ (isPointInPolygon pA (some [pA, pB]) = false
        ∧ isPointInPolygon pA none = false)) :=
  ⟨⟨by decide, by decide⟩,
    C9_small_ring_amended cexP [cexQ0] (by decide) pA [pA, pB] (by decide)⟩

/-! ## LocationFilter (home.tsx hook 4, lines 235-266)

A location sample; the timestamp metadata is irrelevant to every claim
and is omitted.  `accuracy` is `coords.accuracy`, possibly null. -/

structure Sample where
  pt : Point
  accuracy : Option ℚ
deriving Repr, DecidableEq

/-- State of the smoothing hook: `locationHistoryRef.current` (front =
oldest, back = most recent) and the last emitted `tripLocation`. -/
structure FilterState where
  history : List Sample
  tripLocation : Option Sample
deriving Repr, DecidableEq

/-- The accuracy gate of hook 4 (line 237): reject when accuracy is
present and exceeds 75. -/
def accuracyRejected (raw : Sample) : Bool :=
  match raw.accuracy with
  | some a => decide (a > 75)
  | none => false

/-- The accepted-sample branch of hook 4 (lines 253-265): inside a zone
emit the raw sample and clear the history; outside, append to the
7-sample window and emit the arithmetic mean of the window. -/
def filterAccept (inZone : Bool) (s : FilterState) (raw : Sample) : FilterState :=
  if inZone then
    { history := [], tripLocation := some raw }
  else
    let hist1 := s.history ++ [raw]
    let hist2 := if hist1.length > 7 then hist1.tail else hist1
    let avgLat := ((hist2.map fun l => l.pt.lat).sum) / (hist2.length : ℚ)
    let avgLng := ((hist2.map fun l => l.pt.lng).sum) / (hist2.length : ℚ)
    { history := hist2,
      tripLocation := some { raw with pt := { lat := avgLat, lng := avgLng } } }

/-- One incoming raw sample through hook 4: accuracy gate, then the
jump-detection reset (distance from the most recent history entry above
100 resets history to the raw sample), then accept. -/
def filterStep (dist : Point → Point → ℚ) (inZone : Bool)
    (s : FilterState) (raw : Sample) : FilterState :=
  if accuracyRejected raw then s
  else
    match s.history.getLast? with
    | some lastLoc =>
        if dist lastLoc.pt raw.pt > 100 then
          { history := [raw], tripLocation := some raw }
        else filterAccept inZone s raw
    | none => filterAccept inZone s raw

/-- C10: a sample whose accuracy is present and exceeds the 75 m ceiling
is rejected: the filter state (history buffer and emitted tripLocation)
is left completely unchanged. -/
theorem C10_accuracy_gate_rejects (dist : Point → Point → ℚ) (inZone : Bool)
    (s : FilterState) (raw : Sample) (a : ℚ)
    (hacc : raw.accuracy = some a) (hgt : 75 < a) :
    filterStep dist inZone s raw = s := by
  have hrej : accuracyRejected raw = true := by
    simp [accuracyRejected, hacc, hgt]
  simp [filterStep, hrej]

/-- C10 witness: a concrete 80 m accuracy sample leaves a concrete filter
state untouched. -/
theorem C10_witness :
    ({ pt := pB, accuracy := some 80 } : Sample).accuracy = some 80
    ∧ (75 : ℚ) < 80
    ∧ filterStep (fun _ _ => 3) true
        { history := [{ pt := pA, accuracy := some 5 }], tripLocation := some { pt := pA, accuracy := some 5 } }
        { pt := pB, accuracy := some 80 }
      = { history := [{ pt := pA, accuracy := some 5 }], tripLocation := some { pt := pA, accuracy := some 5 } } :=
  ⟨rfl, by norm_num,
    C10_accuracy_gate_rejects (fun _ _ => 3) true
      { history := [{ pt := pA, accuracy := some 5 }], tripLocation := some { pt := pA, accuracy := some 5 } }
      { pt := pB, accuracy := some 80 } 80 rfl (by norm_num)⟩

/-! ## TripStateMachine (home.tsx hook 5, lines 270-356)

The hook reacts to membership changes of `physicallyInZone` (computed by
hook 3 from the raw location) and uses `tripLocation` for entry and exit
points.  We model its behaviour as a step function over abstract events:

* `loc physZone tripLoc` — a location update arrived; `physZone` is the
  containingZone result and `tripLoc` the current filtered tripLocation.
* `timerFire methodRead` — a pending 20 s grace timer reached its
  deadline and its callback ran; `methodRead` is the calculationMethod
  the callback re-reads from the active vehicle_trips document
  (`none` when no active trip document was found).

Trace order models time order, so a re-entry before the grace deadline is
a `loc` event that precedes the `timerFire` event.  A cancelled timer
never fires, so `timerFire` with no pending timer is a no-op. -/

/-- A toll zone as consumed by the trip logic (id and name; the ring is
only used by hook 3, which is abstracted into the event). -/
structure Zone where
  id : String
  name : String
deriving Repr, DecidableEq

/-- Arguments of a calculateAndChargeToll invocation that passed its null
guard; the same shape as the source type
PendingDeduction = \x7b entry, exit, zone \x7d. -/
structure ChargeArgs where
  entry : Point
  exit : Point
  zone : Zone
deriving Repr, DecidableEq

/-- Trip-logic state: `tripZone`, `entryPoint`, and the pending exit
timer holding the captured exitLocation (itself nullable). -/
structure TripState where
  tripZone : Option Zone
  entryPoint : Option Point
  timer : Option (Option Point)
deriving Repr, DecidableEq

def tripInit : TripState := { tripZone := none, entryPoint := none, timer := none }

inductive TripEvent where
  | loc (physZone : Option Zone) (tripLoc : Option Point)
  | timerFire (methodRead : Option String)
deriving Repr, DecidableEq

/-- The canCharge computation of the timer callback (home.tsx lines
315-341): charge unless an active trip document was found whose
calculationMethod is not "GPS". -/
def canChargeOf (methodRead : Option String) : Bool :=
  match methodRead with
  | none => true
  | some m => m == "GPS"

/-- One step of the home.tsx trip logic.  Entry (`physicallyInZone` set
and no tripZone) clears any timer and records the entry point; exit
(membership lost with an active tripZone) starts the grace timer with the
exitLocation captured now; every other membership combination — including
re-entering the zone while a trip is active — leaves the state unchanged.
A firing timer re-reads the calculationMethod, emits the charge when
still authorised and the null guard passes, and clears the trip state. -/
def tripStep (s : TripState) (e : TripEvent) : TripState × List ChargeArgs :=
  match e with
  | .loc physZone tripLoc =>
    match physZone, s.tripZone with
    | some z, none =>
        ({ tripZone := some z, entryPoint := tripLoc, timer := none }, [])
    | none, some _ =>
        (match s.timer with
         | none => { s with timer := some tripLoc }
         | some _ => s, [])
    | _, _ => (s, [])
  | .timerFire methodRead =>
    match s.timer with
    | none => (s, [])
    | some exitLoc =>
        let calls :=
          if canChargeOf methodRead then
            match s.entryPoint, exitLoc, s.tripZone with
            | some en, some ex, some z => [⟨en, ex, z⟩]
            | _, _, _ => []
          else []
        ({ tripZone := none, entryPoint := none, timer := none }, calls)

/-- Run a trip step function over an event trace, collecting the emitted
charge requests in order. -/
def runTripWith (step : TripState → TripEvent → TripState × List ChargeArgs) :
    TripState → List TripEvent → TripState × List ChargeArgs
  | s, [] => (s, [])
  | s, e :: es =>
      let r := step s e
      let rest := runTripWith step r.1 es
      (rest.1, r.2 ++ rest.2)

def runTrip (s : TripState) (es : List TripEvent) : TripState × List ChargeArgs :=
  runTripWith tripStep s es

/-- The earlier HomeScreen variant (src/unnamed/part_000, lines 243-266):
any in-zone location update cancels a pending exit timer before the
(guarded) trip entry, and the timer callback has no authority re-read. -/
def tripStepV0 (s : TripState) (e : TripEvent) : TripState × List ChargeArgs :=
  match e with
  | .loc physZone tripLoc =>
    match physZone with
    | some z =>
        let s1 := { s with timer := none }
        (if s.tripZone = none then
          { s1 with tripZone := some z, entryPoint := tripLoc }
         else s1, [])
    | none =>
      match s.tripZone with
      | some _ =>
          (match s.timer with
           | none => { s with timer := some tripLoc }
           | some _ => s, [])
      | none => (s, [])
  | .timerFire _ =>
    match s.timer with
    | none => (s, [])
    | some exitLoc =>
        (⟨none, none, none⟩,
         match s.entryPoint, exitLoc, s.tripZone with
         | some en, some ex, some z => [⟨en, ex, z⟩]
         | _, _, _ => [])

def zDemo : Zone := { id := "zone1", name := "Demo Zone" }

def pC : Point := { lat := 10, lng := 76 }

/-- C1 evaluation: on the flicker trace (enter at pA, lose membership at
pB starting the grace timer, regain membership at pC before the deadline,
timer fires at the deadline with the trip still GPS-managed), home.tsx
leaves the exit timer pending after the re-entry and emits one charge for
pA to pB — the timer is not cancelled and the charge count is not zero. -/
theorem C1_flicker_still_charges :
    (runTrip tripInit
        [.loc (some zDemo) (some pA), .loc none (some pB),
         .loc (some zDemo) (some pC)]).1.timer ≠ none
    ∧ (runTrip tripInit
        [.loc (some zDemo) (some pA), .loc none (some pB),
         .loc (some zDemo) (some pC), .timerFire (some "GPS")]).2
      = [⟨pA, pB, zDemo⟩] := by
  constructor
  · decide
  · decide

/-- The part_000 variant absorbs the same flicker: re-entry cancels the
timer, so the deadline event charges nothing. -/
theorem tripStepV0_flicker_absorbed :
    (runTripWith tripStepV0 tripInit
        [.loc (some zDemo) (some pA), .loc none (some pB),
         .loc (some zDemo) (some pC), .timerFire (some "GPS")]).2 = [] := by
  decide

/-- The toll computed by calculateAndChargeToll (home.tsx lines 497-499):
ratePerMeter = 50 / 20 and
calculatedToll = Math.max 0 (Math.round (distanceMeters * ratePerMeter)). -/
def calcToll (dist : Point → Point → ℚ) (en ex : Point) : ℤ :=
  max 0 (jsRound (dist en ex * (50 / 20)))

/-- For a nonnegative argument, taking max with 0 outside or inside the
rounding is the same. -/
theorem max_jsRound_comm (x : ℚ) (hx : 0 ≤ x) :
    max 0 (jsRound x) = jsRound (max 0 x) := by
  have h1 : max 0 x = x := max_eq_right hx
  have h2 : (0 : ℤ) ≤ jsRound x := by
    refine Int.le_floor.mpr ?_
    push_cast
    linarith
  rw [h1, max_eq_right h2]

/-- C2: entering at A, losing membership with exit point B, and letting
the grace deadline elapse with no re-entry (and the trip still
GPS-managed) emits exactly one charge request, for A to B in that zone,
whose amount is round (max 0 (distance A B * rate)) at rate 50 / 20 = 2.5
currency units per meter. -/
theorem C2_exit_single_charge (dist : Point → Point → ℚ)
    (hnn : ∀ a b : Point, 0 ≤ dist a b) (z : Zone) (A B : Point) :
    ((runTrip tripInit
        [.loc (some z) (some A), .loc none (some B), .timerFire (some "GPS")]).2).map
      (fun c => (c.entry, c.exit, c.zone, calcToll dist c.entry c.exit))
      = [(A, B, z, jsRound (max 0 (dist A B * (50 / 20))))] := by
  have hstep : (runTrip tripInit
      [.loc (some z) (some A), .loc none (some B), .timerFire (some "GPS")]).2
      = [⟨A, B, z⟩] := rfl
  have hx : (0 : ℚ) ≤ dist A B * (50 / 20) := mul_nonneg (hnn A B) (by norm_num)
  rw [hstep]
  simp [calcToll, max_jsRound_comm _ hx]

/-- C2 witness: with a constant 7 m displacement the single emitted
charge is round (7 * 2.5) = 18. -/
theorem C2_witness :
    ((runTrip tripInit
        [.loc (some zDemo) (some pA), .loc none (some pB), .timerFire (some "GPS")]).2).map
      (fun c => (c.entry, c.exit, c.zone, calcToll (fun _ _ => 7) c.entry c.exit))
      = [(pA, pB, zDemo, (18 : ℤ))] := by
  have h := C2_exit_single_charge (fun _ _ => 7) (fun _ _ => by norm_num) zDemo pA pB
  rw [h]
  norm_num [jsRound]

/-- C3: when the timer callback re-reads a calculationMethod that is not
"GPS" from the active trip document, the device emits no charge for that
exit, whatever the trip state was. -/
theorem C3_handoff_suppresses_charge (s : TripState) (m : String) (hm : m ≠ "GPS") :
    (tripStep s (.timerFire (some m))).2 = [] := by
  have hc : canChargeOf (some m) = false := by
    simp [canChargeOf, hm]
  cases hts : s.timer with
  | none => simp [tripStep, hts]
  | some exitLoc => simp [tripStep, hts, hc]

/-- C3 witness: a pending exit with a full trip state is suppressed when
the re-read method is "HYBRID". -/
theorem C3_witness :
    "HYBRID" ≠ "GPS"
    ∧ (tripStep { tripZone := some zDemo, entryPoint := some pA, timer := some (some pB) }
        (.timerFire (some "HYBRID"))).2 = [] :=
  ⟨by decide,
    C3_handoff_suppresses_charge
      { tripZone := some zDemo, entryPoint := some pA, timer := some (some pB) }
      "HYBRID" (by decide)⟩

/-! ## TollLedger (home.tsx lines 467-535)

`calculateAndChargeToll` and `syncOfflineTransactions`, embedded over a
ledger state holding the known wallet balance (null until the user
snapshot arrives), the single pending deduction, the durable offline
queue, and the appended transaction records.  Distance-description and
timestamp metadata of the records play no role in any claim and are
omitted. -/

/-- A debit transaction record as appended to the transactions
collection. -/
structure TxRecord where
  userId : String
  zoneId : String
  zoneName : String
  amount : ℤ
deriving Repr, DecidableEq

/-- An OfflineTransaction queued in local storage. -/
structure OfflineTx where
  userId : String
  zoneId : String
  zoneName : String
  amount : ℤ
deriving Repr, DecidableEq

structure LedgerState where
  walletBalance : Option ℚ
  pendingDeduction : Option ChargeArgs
  offlineQueue : List OfflineTx
  transactions : List TxRecord
deriving Repr, DecidableEq

/-- calculateAndChargeToll (home.tsx lines 495-535): after the null
guard, compute the toll; offline appends one OfflineTransaction and
leaves the wallet alone; online with a known balance that the charge
would take below the 500 floor refuses and persists at most one pending
deduction; otherwise the wallet is decremented and a debit record is
appended (when the local balance is still unknown the server-side
decrement happens but the known balance stays unknown). -/
def calculateAndChargeToll (dist : Point → Point → ℚ) (isOffline : Bool)
    (userId : String) (entry exitP : Option Point) (zone : Option Zone)
    (s : LedgerState) : LedgerState :=
  match entry, exitP, zone with
  | some en, some ex, some z =>
    let calculatedToll : ℤ := max 0 (jsRound (dist en ex * (50 / 20)))
    if isOffline then
      { s with offlineQueue := s.offlineQueue ++ [⟨userId, z.id, z.name, calculatedToll⟩] }
    else
      match s.walletBalance with
      | some bal =>
        if bal - (calculatedToll : ℚ) < 500 then
          match s.pendingDeduction with
          | none => { s with pendingDeduction := some ⟨en, ex, z⟩ }
          | some _ => s
        else
          { s with walletBalance := some (bal - (calculatedToll : ℚ)),
                   transactions := s.transactions ++ [⟨userId, z.id, z.name, calculatedToll⟩] }
      | none =>
          { s with transactions := s.transactions ++ [⟨userId, z.id, z.name, calculatedToll⟩] }
  | _, _, _ => s

/-- The record written when an offline transaction is replayed. -/
def offlineToRecord (tx : OfflineTx) : TxRecord :=
  ⟨tx.userId, tx.zoneId, tx.zoneName, tx.amount⟩

/-- One loop iteration of syncOfflineTransactions (home.tsx lines
475-488): decrement the wallet by the stored amount and append the debit
record. -/
def syncStep (st : LedgerState) (tx : OfflineTx) : LedgerState :=
  { st with walletBalance := st.walletBalance.map (fun b => b - (tx.amount : ℚ)),
            transactions := st.transactions ++ [offlineToRecord tx] }

/-- syncOfflineTransactions (home.tsx lines 467-493): replay the queued
transactions in order, then clear the queue. -/
def syncOfflineTransactions (s : LedgerState) : LedgerState :=
  let s1 := s.offlineQueue.foldl syncStep s
  { s1 with offlineQueue := [] }

theorem syncFold_transactions (q : List OfflineTx) (st : LedgerState) :
    (q.foldl syncStep st).transactions = st.transactions ++ q.map offlineToRecord := by
  induction q generalizing st with
  | nil => simp
  | cons tx rest ih =>
      rw [List.foldl_cons, ih]
      simp [syncStep]

theorem syncFold_wallet (q : List OfflineTx) (st : LedgerState) (b : ℚ)
    (hb : st.walletBalance = some b) :
    (q.foldl syncStep st).walletBalance
      = some (b - ((q.map fun tx => (tx.amount : ℚ)).sum)) := by
  induction q generalizing st b with
  | nil => simpa using hb
  | cons tx rest ih =>
      have hstep : (syncStep st tx).walletBalance = some (b - (tx.amount : ℚ)) := by
        simp [syncStep, hb]
      rw [List.foldl_cons, ih (syncStep st tx) _ hstep]
      congr 1
      simp only [List.map_cons, List.sum_cons]
      ring

/-- C4: an online charge while the known balance minus the amount is
below the 500 floor is refused: the balance, the transaction log, and the
offline queue are unchanged, and the request becomes the single
outstanding pending deduction — an already outstanding one is kept and
the new request is not queued. -/
theorem C4_low_balance_defers (dist : Point → Point → ℚ) (uid : String)
    (en ex : Point) (z : Zone) (s : LedgerState) (bal : ℚ)
    (hb : s.walletBalance = some bal)
    (hlow : bal - (calcToll dist en ex : ℚ) < 500) :
    (calculateAndChargeToll dist false uid (some en) (some ex) (some z) s).walletBalance
        = some bal
    ∧ (calculateAndChargeToll dist false uid (some en) (some ex) (some z) s).transactions
        = s.transactions
    ∧ (calculateAndChargeToll dist false uid (some en) (some ex) (some z) s).offlineQueue
        = s.offlineQueue
    ∧ (calculateAndChargeToll dist false uid (some en) (some ex) (some z) s).pendingDeduction
        = some (s.pendingDeduction.getD ⟨en, ex, z⟩) := by
  have htoll := hlow
  unfold calcToll at htoll
  push_cast at htoll
  cases hp : s.pendingDeduction with
  | none => simp [calculateAndChargeToll, hb, hp, htoll]
  | some p => simp [calculateAndChargeToll, hb, hp, htoll]

/-- C4 witness: balance 400, constant 7 m displacement (toll 18): the
charge is deferred into an empty pending slot and the state is otherwise
untouched. -/
theorem C4_witness :
    ({ walletBalance := some 400, pendingDeduction := none, offlineQueue := [],
       transactions := [] } : LedgerState).walletBalance = some 400
    ∧ ((calculateAndChargeToll (fun _ _ => 7) false "u1" (some pA) (some pB) (some zDemo)
          { walletBalance := some 400, pendingDeduction := none, offlineQueue := [],
            transactions := [] }).walletBalance = some 400
      ∧ (calculateAndChargeToll (fun _ _ => 7) false "u1" (some pA) (some pB) (some zDemo)
          { walletBalance := some 400, pendingDeduction := none, offlineQueue := [],
            transactions := [] }).transactions = ([] : List TxRecord)
      ∧ (calculateAndChargeToll (fun _ _ => 7) false "u1" (some pA) (some pB) (some zDemo)
          { walletBalance := some 400, pendingDeduction := none, offlineQueue := [],
            transactions := [] }).offlineQueue = ([] : List OfflineTx)
      ∧ (calculateAndChargeToll (fun _ _ => 7) false "u1" (some pA) (some pB) (some zDemo)
          { walletBalance := some 400, pendingDeduction := none, offlineQueue := [],
            transactions := [] }).pendingDeduction
        = some ((none : Option ChargeArgs).getD ⟨pA, pB, zDemo⟩)) :=
  ⟨rfl,
    C4_low_balance_defers (fun _ _ => 7) "u1" pA pB zDemo
      { walletBalance := some 400, pendingDeduction := none, offlineQueue := [],
        transactions := [] } 400 rfl
      (by norm_num [calcToll, jsRound])⟩

/-- C5: a charge made while offline appends exactly one
OfflineTransaction to the durable queue and touches neither the wallet
nor the transaction log; replaying the queue on reconnect appends one
debit record per queued transaction in original order, decrements the
wallet by each stored amount, and leaves the queue empty. -/
theorem C5_offline_queue_and_replay (dist : Point → Point → ℚ) (uid : String)
    (en ex : Point) (z : Zone) (s : LedgerState) (b : ℚ)
    (hb : s.walletBalance = some b) :
    ((calculateAndChargeToll dist true uid (some en) (some ex) (some z) s).offlineQueue
        = s.offlineQueue ++ [⟨uid, z.id, z.name, calcToll dist en ex⟩]
      ∧ (calculateAndChargeToll dist true uid (some en) (some ex) (some z) s).walletBalance
        = some b
      ∧ (calculateAndChargeToll dist true uid (some en) (some ex) (some z) s).transactions
        = s.transactions)
    ∧ ((syncOfflineTransactions s).transactions
        = s.transactions ++ s.offlineQueue.map offlineToRecord
      ∧ (syncOfflineTransactions s).walletBalance
        = some (b - ((s.offlineQueue.map fun tx => (tx.amount : ℚ)).sum))
      ∧ (syncOfflineTransactions s).offlineQueue = []) := by
  refine ⟨⟨?_, ?_, ?_⟩, ?_, ?_, ?_⟩
  · simp [calculateAndChargeToll, calcToll]
  · simp [calculateAndChargeToll, hb]
  · simp [calculateAndChargeToll]
  · simp [syncOfflineTransactions, syncFold_transactions]
  · simp [syncOfflineTransactions, syncFold_wallet s.offlineQueue s b hb]
  · simp [syncOfflineTransactions]

/-- Concrete ledger used to witness C5: balance 1000 and one previously
queued offline transaction of amount 40. -/
def ledgerW : LedgerState :=
  { walletBalance := some 1000, pendingDeduction := none,
    offlineQueue := [⟨"u0", "zone0", "Old Zone", 40⟩], transactions := [] }

/-- C5 witness: the concrete ledger satisfies the hypothesis and the
offline-queue and replay behaviour. -/
theorem C5_witness :
    ledgerW.walletBalance = some 1000
    ∧ (((calculateAndChargeToll (fun _ _ => 7) true "u1" (some pA) (some pB) (some zDemo)
            ledgerW).offlineQueue
          = ledgerW.offlineQueue ++ [⟨"u1", zDemo.id, zDemo.name, calcToll (fun _ _ => 7) pA pB⟩]
        ∧ (calculateAndChargeToll (fun _ _ => 7) true "u1" (some pA) (some pB) (some zDemo)
            ledgerW).walletBalance = some 1000
        ∧ (calculateAndChargeToll (fun _ _ => 7) true "u1" (some pA) (some pB) (some zDemo)
            ledgerW).transactions = ledgerW.transactions)
      ∧ ((syncOfflineTransactions ledgerW).transactions
          = ledgerW.transactions ++ ledgerW.offlineQueue.map offlineToRecord
        ∧ (syncOfflineTransactions ledgerW).walletBalance
          = some (1000 - ((ledgerW.offlineQueue.map fun tx => (tx.amount : ℚ)).sum))
        ∧ (syncOfflineTransactions ledgerW).offlineQueue = [])) :=
  ⟨rfl, C5_offline_queue_and_replay (fun _ _ => 7) "u1" pA pB zDemo ledgerW 1000 rfl⟩

/-- C7: the reconnect replay decrements the wallet by every stored amount
unconditionally — the resulting balance is the old balance minus the
queued total, with no 500-floor re-check — and a queued 1000-unit charge
against a 600-unit balance drives the balance to -400, below the floor
and negative. -/
theorem C7_replay_ignores_floor :
    (∀ (s : LedgerState) (b : ℚ), s.walletBalance = some b →
      (syncOfflineTransactions s).walletBalance
        = some (b - ((s.offlineQueue.map fun tx => (tx.amount : ℚ)).sum))
      ∧ (syncOfflineTransactions s).offlineQueue = [])
    ∧ (syncOfflineTransactions
        { walletBalance := some 600, pendingDeduction := none,
          offlineQueue := [⟨"u1", "zone1", "Demo Zone", 1000⟩],
          transactions := [] }).walletBalance = some (-400) := by
  constructor
  · intro s b hb
    exact ⟨by simp [syncOfflineTransactions, syncFold_wallet s.offlineQueue s b hb], rfl⟩
  · norm_num [syncOfflineTransactions, syncStep]

/-! ## BackendReconciler (src/unnamed/part_005, calculateTollOnSighting)

The cloud function reacts to an update of a vehicle_trips document.  The
stored collaborators are oracles: `camLoc zoneId cameraId` is the
operator-map lookup of getCameraLocation, and `userWallet userId` the
walletBalance of the users document (`none` when the user document does
not exist, in which case the transaction throws before writing anything).
The result is `none` when the function returns without writing, otherwise
the effects applied in its single transaction (or trip update for
unregistered vehicles). -/

/-- The vehicle_trips document fields read by calculateTollOnSighting. -/
structure TripDoc where
  lastCheckpoint : Option String
  calculationMethod : Option String
  lastKnownGpsLocation : Option Point
  tollZoneId : Option String
  tollZoneName : String
  userId : Option String
deriving Repr, DecidableEq

/-- A backend debit receipt written to the transactions collection
(part_005 lines 149-159); calcMethod is the calculationMethod recorded
on the receipt. -/
structure BTxRecord where
  userId : String
  zoneId : Option String
  zoneName : String
  amount : ℤ
  calcMethod : Option String
deriving Repr, DecidableEq

/-- The writes performed for one sighting. -/
structure SightingOutcome where
  walletDelta : ℚ
  tripStatusSet : Option String
  tollIncrement : ℤ
  methodSet : Option String
  clearHybridFields : Bool
  records : List BTxRecord
deriving Repr, DecidableEq

/-- getCameraLocation (part_005 lines 24-35): null zone or camera id, or
an unknown camera, yields null. -/
def getCameraLocation (camLoc : String → String → Option Point)
    (tollZoneId cameraId : Option String) : Option Point :=
  match tollZoneId, cameraId with
  | some tz, some cam => camLoc tz cam
  | _, _ => none

/-- The segment start of part_005 lines 84-100: HYBRID with a stored
last-known GPS location starts there (and schedules the switch to ANPR
plus the hybrid-field cleanup, the Bool component); otherwise the
previous checkpoint camera is the start. -/
def sightingStart (camLoc : String → String → Option Point)
    (beforeData afterData : TripDoc) : Option Point × Bool :=
  if afterData.calculationMethod = some "HYBRID" then
    match afterData.lastKnownGpsLocation with
    | some gp => (some gp, true)
    | none => (getCameraLocation camLoc afterData.tollZoneId beforeData.lastCheckpoint, false)
  else
    (getCameraLocation camLoc afterData.tollZoneId beforeData.lastCheckpoint, false)

/-- calculateTollOnSighting (part_005 lines 38-176).  Early exits: no
checkpoint change; GPS-managed trip; unknown current camera; unknown
segment start; nonpositive distance; registered user whose user document
is missing (the transaction throws before writing).  Otherwise the
segment toll max 0 (round (d * 1)) is applied: an unregistered vehicle
only accrues tollIncrement on the trip; a registered user below the
500 floor keeps the wallet, gains status pending_payment and still gets
a debit receipt; a registered user above the floor is debited and gets
the receipt. -/
def calculateTollOnSighting (dist : Point → Point → ℚ)
    (camLoc : String → String → Option Point)
    (userWallet : String → Option ℚ)
    (beforeData afterData : TripDoc) : Option SightingOutcome :=
  if beforeData.lastCheckpoint = afterData.lastCheckpoint then none
  else if afterData.calculationMethod = some "GPS" then none
  else
    match getCameraLocation camLoc afterData.tollZoneId afterData.lastCheckpoint with
    | none => none
    | some endLoc =>
      match (sightingStart camLoc beforeData afterData).1 with
      | none => none
      | some startLoc =>
        let distanceMeters := dist startLoc endLoc
        if distanceMeters ≤ 0 then none
        else
          let segmentToll : ℤ := max 0 (jsRound (distanceMeters * 1))
          let isHybrid := (sightingStart camLoc beforeData afterData).2
          let methodUpd : Option String := if isHybrid then some "ANPR" else none
          match afterData.userId with
          | none =>
              some { walletDelta := 0, tripStatusSet := none,
                     tollIncrement := segmentToll, methodSet := methodUpd,
                     clearHybridFields := isHybrid, records := [] }
          | some uid =>
            match userWallet uid with
            | none => none
            | some bal =>
              if bal - (segmentToll : ℚ) < 500 then
                some { walletDelta := 0, tripStatusSet := some "pending_payment",
                       tollIncrement := segmentToll, methodSet := methodUpd,
                       clearHybridFields := isHybrid,
                       records := [⟨uid, afterData.tollZoneId, afterData.tollZoneName,
                                    segmentToll, afterData.calculationMethod⟩] }
              else
                some { walletDelta := -(segmentToll : ℚ), tripStatusSet := none,
                       tollIncrement := segmentToll, methodSet := methodUpd,
                       clearHybridFields := isHybrid,
                       records := [⟨uid, afterData.tollZoneId, afterData.tollZoneName,
                                    segmentToll, afterData.calculationMethod⟩] }

/-- C6: a camera-sighting update of a trip whose calculationMethod is
"GPS" makes the backend reconciler take no action at all — no wallet
charge and no write. -/
theorem C6_gps_trip_backend_noop (dist : Point → Point → ℚ)
    (camLoc : String → String → Option Point) (userWallet : String → Option ℚ)
    (beforeData afterData : TripDoc)
    (h : afterData.calculationMethod = some "GPS") :
    calculateTollOnSighting dist camLoc userWallet beforeData afterData = none := by
  unfold calculateTollOnSighting
  by_cases hc : beforeData.lastCheckpoint = afterData.lastCheckpoint
  · simp [hc]
  · simp [hc, h]

/-- Concrete trip documents for the backend witnesses. -/
def beforeW : TripDoc :=
  { lastCheckpoint := some "cam1", calculationMethod := some "ANPR",
    lastKnownGpsLocation := none, tollZoneId := some "tz1",
    tollZoneName := "TZ One", userId := some "u1" }

def afterGpsW : TripDoc :=
  { lastCheckpoint := some "cam2", calculationMethod := some "GPS",
    lastKnownGpsLocation := none, tollZoneId := some "tz1",
    tollZoneName := "TZ One", userId := some "u1" }

/-- C6 witness: a concrete GPS-managed sighting update produces no
backend action. -/
theorem C6_witness :
    afterGpsW.calculationMethod = some "GPS"
    ∧ calculateTollOnSighting (fun _ _ => 200) (fun _ _ => some pA)
        (fun _ => some 600) beforeW afterGpsW = none :=
  ⟨rfl, C6_gps_trip_backend_noop (fun _ _ => 200) (fun _ _ => some pA)
      (fun _ => some 600) beforeW afterGpsW rfl⟩

/-- C8: in the registered-user path, when the wallet balance minus the
segment toll is below the 500 floor, the wallet is not touched
(walletDelta 0), the trip status is set to pending_payment, and a debit
receipt for the segment toll is still appended — all in the one
transaction the outcome describes. -/
theorem C8_backend_low_balance (dist : Point → Point → ℚ)
    (camLoc : String → String → Option Point) (userWallet : String → Option ℚ)
    (beforeData afterData : TripDoc) (endLoc startLoc : Point)
    (uid : String) (bal : ℚ)
    (h1 : beforeData.lastCheckpoint ≠ afterData.lastCheckpoint)
    (h2 : afterData.calculationMethod ≠ some "GPS")
    (h3 : getCameraLocation camLoc afterData.tollZoneId afterData.lastCheckpoint = some endLoc)
    (h4 : (sightingStart camLoc beforeData afterData).1 = some startLoc)
    (h5 : 0 < dist startLoc endLoc)
    (h6 : afterData.userId = some uid)
    (h7 : userWallet uid = some bal)
    (h8 : bal - ((max 0 (jsRound (dist startLoc endLoc * 1)) : ℤ) : ℚ) < 500) :
    calculateTollOnSighting dist camLoc userWallet beforeData afterData
      = some { walletDelta := 0, tripStatusSet := some "pending_payment",
               tollIncrement := max 0 (jsRound (dist startLoc endLoc * 1)),
               methodSet := if (sightingStart camLoc beforeData afterData).2
                            then some "ANPR" else none,
               clearHybridFields := (sightingStart camLoc beforeData afterData).2,
               records := [⟨uid, afterData.tollZoneId, afterData.tollZoneName,
                            max 0 (jsRound (dist startLoc endLoc * 1)),
                            afterData.calculationMethod⟩] } := by
  unfold calculateTollOnSighting
  simp only [if_neg h1, if_neg h2, h3, h4, if_neg (not_le.mpr h5), h6, h7, if_pos h8]

/-- The camera-location oracle for the C8 witness. -/
def camW : String → String → Option Point :=
  fun _ cam => if cam = "cam1" then some pA else if cam = "cam2" then some pB else none

def afterAnprW : TripDoc :=
  { lastCheckpoint := some "cam2", calculationMethod := some "ANPR",
    lastKnownGpsLocation := none, tollZoneId := some "tz1",
    tollZoneName := "TZ One", userId := some "u1" }

/-- C8 witness: a 200 m segment against a 600-unit balance (600 - 200 <
500) yields walletDelta 0, status pending_payment, and one 200-unit debit
receipt. -/
theorem C8_witness :
    calculateTollOnSighting (fun _ _ => 200) camW (fun _ => some 600) beforeW afterAnprW
      = some { walletDelta := 0, tripStatusSet := some "pending_payment",
               tollIncrement := (200 : ℤ), methodSet := none, clearHybridFields := false,
               records := [⟨"u1", some "tz1", "TZ One", (200 : ℤ), some "ANPR"⟩] } := by
  have h := C8_backend_low_balance (fun _ _ => 200) camW (fun _ => some 600)
    beforeW afterAnprW pB pA "u1" 600
    (by decide) (by decide)
    (by simp [getCameraLocation, afterAnprW, camW])
    (by simp [sightingStart, getCameraLocation, afterAnprW, beforeW, camW])
    (by norm_num)
    rfl rfl
    (by norm_num [jsRound])
  rw [h]
  norm_num [jsRound, sightingStart, afterAnprW]

end TollApp
